import Mathlib

/-!
# Verification of the acr122u card library

Shallow embedding in Lean 4 of the parts of the acr122u Go repository that
the specification claims talk about:

* `Desfire` — the DESFire driver (`desfire` package): ISO 7816 enveloped
  framing (`Transceive`), the three-frame `GetVersion` query, the AES
  mutual-authentication handshake (`AuthenticateAES`), CBC encryption
  helpers, `padData` and `rotateLeft`.
* `Hardware` — the card-identification engine (`hardware` package):
  `detectCardType`, `getCardAttributes`, `tryClassic`, `tryNTAG`,
  `tryUltralight`, `tryDESFireVersion`, `getDESFireInfo`,
  `getDESFireStorageSize`, `getCardType`.
* `Ultralight` — the Ultralight C driver (`ultralight` package):
  `ReadPage`, `WritePage`, the key byte-order encoding used by
  `ChangeKey`/`ReadKey`, and its own `rotateLeft`.

Modelling conventions:

* Bytes are `Nat`; where Go narrows to `byte` the model takes the value
  `% 256` explicitly.
* The PC/SC transport (`scard.Card.Transmit`) is external to the
  repository.  It is modelled either as a stateless oracle
  `Card := List Nat → Option (List Nat)` (`none` = transmit error), or —
  for call sequences that send the same frame twice and may receive
  different answers — as a scripted transcript `TxState` whose `pending`
  responses are consumed in order and whose `sent` field logs every raw
  frame given to the transport.
* The AES block primitive comes from the Go standard library, not from this
  repository, so it is abstracted as a pair of functions
  `E D : List Nat → List Nat` acting on 16-byte blocks; the repository-
  level CBC chaining, zero IV, and padding are embedded from the source.
* Go run-time panics (out-of-range slice indexing) that the source can
  hit on malformed responses are modelled as explicit error outcomes and
  marked by a comment at each site.
* Fields of the Go structs that the claims never observe (the cached
  `block0`/`page0..page2` copies, the ATR/protocol attributes obtained
  from the external `scard.Status` call) are omitted; a comment marks
  each omission.
-/

namespace ACR122U

/-- A stateless simulated card: maps a raw transmitted frame to the raw
response, `none` meaning a transport (transmit) error. -/
def Card : Type := List Nat → Option (List Nat)

namespace Desfire

/-- Go `CmdGetVersion = 0x60` (desfire command table). -/
def CmdGetVersion : Nat := 0x60

/-- Go `CmdAdditionalFrame = 0xAF` (desfire command table). -/
def CmdAdditionalFrame : Nat := 0xAF

/-- Go `CmdAuthenticateAES = 0xAA` (desfire command table). -/
def CmdAuthenticateAES : Nat := 0xAA

/-- Go `StatusSuccess = 0x00`. -/
def StatusSuccess : Nat := 0x00

/-- Go `StatusAdditionalFrame = 0xAF`. -/
def StatusAdditionalFrame : Nat := 0xAF

/-- Go `KeyTypeAES = 0x03`. -/
def KeyTypeAES : Nat := 0x03

/-- ISO 7816-4 APDU wrapping performed at the top of `DESFire.Transceive`:
`[0x90 CLA, INS = cmd[0], P1 = 0, P2 = 0] ++ (Lc, data when present) ++ Le`.
`byte(len(cmd)-1)` is modelled as `(cmd.length - 1) % 256`. -/
def buildAPDU (cmd : List Nat) : List Nat :=
  [0x90, cmd.headD 0, 0x00, 0x00] ++
    (if 1 < cmd.length then ((cmd.length - 1) % 256) :: cmd.tail else [0x00]) ++
    [0x00]

/-- Status handling of `DESFire.Transceive` applied to a raw transport
response: reject responses shorter than 2 bytes, then inspect the last
two bytes `(sw1, sw2)`; `sw1 = 0x91` maps `sw2` through the DESFire
status family (success / additional frame), `0x90 0x00` is plain ISO
success, anything else is an error. -/
def transceiveStatus (response : List Nat) : Except String (List Nat) :=
  if response.length < 2 then .error "response too short"
  else
    let sw1 := response.getD (response.length - 2) 0
    let sw2 := response.getD (response.length - 1) 0
    if sw1 = 0x91 then
      if sw2 ≠ StatusSuccess ∧ sw2 ≠ StatusAdditionalFrame then
        .error "DESFire error"
      else .ok (response.take (response.length - 2))
    else if sw1 = 0x90 ∧ sw2 = 0x00 then
      .ok (response.take (response.length - 2))
    else .error "card error"

/-- Scripted transport transcript: `pending` raw responses are consumed
one per transmit (`none` = transmit error; an exhausted script also
counts as a transmit error), `sent` logs every raw frame transmitted. -/
structure TxState where
  pending : List (Option (List Nat))
  sent : List (List Nat)
deriving Repr, DecidableEq

/-- One `scard.Card.Transmit` call against the scripted transcript. -/
def transmit (s : TxState) (frame : List Nat) : Option (List Nat) × TxState :=
  match s.pending with
  | [] => (none, ⟨[], s.sent ++ [frame]⟩)
  | r :: rest => (r, ⟨rest, s.sent ++ [frame]⟩)

/-- Go `DESFire.Transceive`: wrap in an APDU, transmit, interpret status. -/
def Transceive (s : TxState) (cmd : List Nat) : Except String (List Nat) × TxState :=
  match transmit s (buildAPDU cmd) with
  | (none, s1) => (.error "transmit error", s1)
  | (some response, s1) => (transceiveStatus response, s1)

/-- Go `DESFire.GetVersion`: three sequential exchanges — the version opcode,
then the additional-frame opcode twice — concatenating the payloads;
the first error aborts. -/
def GetVersion (s : TxState) : Except String (List Nat) × TxState :=
  match Transceive s [CmdGetVersion] with
  | (.error e, s1) => (.error e, s1)
  | (.ok p1, s1) =>
    match Transceive s1 [CmdAdditionalFrame] with
    | (.error e, s2) => (.error e, s2)
    | (.ok p2, s2) =>
      match Transceive s2 [CmdAdditionalFrame] with
      | (.error e, s3) => (.error e, s3)
      | (.ok p3, s3) => (.ok ((p1 ++ p2) ++ p3), s3)

/-- Go `padData`: always append `padding` bytes of value `byte(padding)`
where `padding = blockSize - len(data) % blockSize`, replaced by
`blockSize` if it were zero (dead branch for positive block sizes). -/
def padData (data : List Nat) (blockSize : Nat) : List Nat :=
  let padding0 := blockSize - data.length % blockSize
  let padding := if padding0 = 0 then blockSize else padding0
  data ++ List.replicate padding (padding % 256)

/-- Go `rotateLeft` (desfire copy): one-byte left rotation; the empty string
is returned unchanged. -/
def rotateLeft : List Nat → List Nat
  | [] => []
  | a :: rest => rest ++ [a]

/-- Byte-wise XOR of two equal-length byte strings (the block combining
step of the Go CBC modes). -/
def xorBytes (a b : List Nat) : List Nat := List.zipWith Nat.xor a b

/-- Fuel-driven 16-byte chunking loop; the fuel (initially the list
length) only serves structural termination and never runs out, since
each step drops at least one element of a non-empty list. -/
def chunks16Go : Nat → List Nat → List (List Nat)
  | _, [] => []
  | 0, _ :: _ => []
  | fuel + 1, a :: rest => ((a :: rest).take 16) :: chunks16Go fuel ((a :: rest).drop 16)

/-- Split a byte string into 16-byte chunks (AES block size), as
`cipher.CryptBlocks` consumes its input. -/
def chunks16 (l : List Nat) : List (List Nat) := chunks16Go l.length l

/-- CBC encryption chaining (`cipher.NewCBCEncrypter` semantics) over an
abstract block encryptor `E`. -/
def cbcEncBlocks (E : List Nat → List Nat) (iv : List Nat) : List (List Nat) → List (List Nat)
  | [] => []
  | b :: bs =>
    let c := E (xorBytes iv b)
    c :: cbcEncBlocks E c bs

/-- CBC decryption chaining (`cipher.NewCBCDecrypter` semantics) over an
abstract block decryptor `D`. -/
def cbcDecBlocks (D : List Nat → List Nat) (iv : List Nat) : List (List Nat) → List (List Nat)
  | [] => []
  | b :: bs => xorBytes (D b) iv :: cbcDecBlocks D b bs

/-- The 16-byte zero IV used by `encryptAES`/`decryptAES`. -/
def zeroIV16 : List Nat := List.replicate 16 0

/-- Go `encryptAES`: pad to the AES block size, then CBC-encrypt with a zero
IV.  The only error path in the source is `aes.NewCipher` rejecting a
bad key length, which the abstract block function `E` subsumes (the
caller has already validated the 16-byte key). -/
def encryptAES (E : List Nat → List Nat) (data : List Nat) : List Nat :=
  (cbcEncBlocks E zeroIV16 (chunks16 (padData data 16))).flatten

/-- Go `decryptAES`: reject input that is not a whole number of AES blocks,
else CBC-decrypt with a zero IV. -/
def decryptAES (D : List Nat → List Nat) (data : List Nat) : Except String (List Nat) :=
  if data.length % 16 ≠ 0 then .error "ciphertext is not a multiple of block size"
  else .ok ((cbcDecBlocks D zeroIV16 (chunks16 data)).flatten)

/-- Go `SessionKey` struct of the desfire package (`sessionKeyMAC` is never
assigned by `AuthenticateAES`, hence `[]` = Go `nil`). -/
structure SessionKey where
  keyType : Nat
  key : List Nat
  sessionKey : List Nat
  sessionKeyMAC : List Nat
  iv : List Nat
  cmdCounter : Nat
deriving Repr, DecidableEq

/-- Go `DESFire.AuthenticateAES` over the scripted transport.  `E`/`D` are
the AES-128 block encryption/decryption functions for `key` (from the Go
crypto library, abstracted), `rndA` models the 16 bytes drawn from
`crypto/rand`, `session0` is the `session` field of the receiver before
the call.  Returns (outcome, session field after the call, transport
state after the call). -/
def AuthenticateAES (E D : List Nat → List Nat) (keyNo : Nat) (key : List Nat)
    (rndA : List Nat) (session0 : Option SessionKey) (s : TxState) :
    Except String Unit × Option SessionKey × TxState :=
  if key.length ≠ 16 then (.error "AES key must be 16 bytes", session0, s)
  else
    match Transceive s [CmdAuthenticateAES, keyNo] with
    | (.error _, s1) => (.error "authenticate step 1 failed", session0, s1)
    | (.ok resp1, s1) =>
      if resp1.length < 16 then (.error "encrypted RndB too short", session0, s1)
      else
        match decryptAES D (resp1.take 16) with
        | .error _ => (.error "failed to decrypt RndB", session0, s1)
        | .ok rndB =>
          let rndBRotated := rotateLeft rndB
          let data := rndA ++ rndBRotated
          let encData := encryptAES E data
          match Transceive s1 (CmdAdditionalFrame :: encData) with
          | (.error _, s2) => (.error "authenticate step 2 failed", session0, s2)
          | (.ok resp2, s2) =>
            if resp2.length < 16 then
              (.error "encrypted RndA rotated too short", session0, s2)
            else
              match decryptAES D (resp2.take 16) with
              | .error _ => (.error "failed to decrypt RndA rotated", session0, s2)
              | .ok rndARotatedDecrypted =>
                if rotateLeft rndA = rndARotatedDecrypted then
                  (.ok (), some ⟨KeyTypeAES, key, key, [], List.replicate 16 0, 0⟩, s2)
                else
                  (.error "authentication failed: RndA mismatch", session0, s2)

end Desfire

namespace Hardware

/-- Card-type name constant of the hardware package. -/
def MIFARE_CLASSIK_1K : String := "MIFARE Classic 1K"

/-- Card-type name constant of the hardware package. -/
def MIFARE_CLASSIK_4K : String := "MIFARE Classic 4K"

/-- Card-type name constant of the hardware package. -/
def MIFARE_MINI : String := "MIFARE Mini"

/-- Card-type name constant of the hardware package. -/
def MIFARE_ULTRALIGHT : String := "MIFARE Ultralight/NTAG203/213"

/-- Card-type name constant of the hardware package. -/
def NTAG : String := "NTAG215/216"

/-- Card-type name constant of the hardware package. -/
def MIFARE_DESFIRE : String := "DESFire EV1/EV2/EV3"

/-- Card-type name constant of the hardware package. -/
def MIFARE_PLUS_SE_2K : String := "MIFARE Plus SE 2K"

/-- Card-type name constant of the hardware package. -/
def MIFARE_PLUS_SE_4K : String := "MIFARE Plus SE 4K"

/-- Card-type name constant of the hardware package. -/
def TOPAZ_JEWEL : String := "Topaz/Jewel"

/-- Card-type name constant of the hardware package. -/
def FELI_CA : String := "FeliCa"

/-- The APDU sent by `Reader.readPage`: `FF B0 00 page 04`. -/
def readPageCmd (page : Nat) : List Nat := [0xFF, 0xB0, 0x00, page, 0x04]

/-- The APDU sent by `Reader.readBlock`: `FF B0 00 block 10`. -/
def readBlockCmd (block : Nat) : List Nat := [0xFF, 0xB0, 0x00, block, 0x10]

/-- The APDU sent by `Reader.classicLoadKey`: `FF 82 00 keyNumber 06 ++ key`. -/
def classicLoadKeyCmd (keyNumber : Nat) (key : List Nat) : List Nat :=
  [0xFF, 0x82, 0x00, keyNumber, 0x06] ++ key

/-- The APDU sent by `Reader.classicAuthenticate`:
`FF 86 00 00 05 01 00 block keyType keyNumber`. -/
def classicAuthCmd (block keyType keyNumber : Nat) : List Nat :=
  [0xFF, 0x86, 0x00, 0x00, 0x05, 0x01, 0x00, block, keyType, keyNumber]

/-- The raw frame sent by `Reader.tryUltralight`: native read of page 4. -/
def ultralightProbeCmd : List Nat := [0x30, 4]

/-- The APDU sent by the `getCardAttributes` fallback and by `getUID`. -/
def selectAllCmd : List Nat := [0xFF, 0xCA, 0x00, 0x00, 0x00]

/-- The enveloped DESFire GetVersion probe sent by `tryDESFireVersion`
and `getDESFireInfo`: `90 60 00 00 00`. -/
def dfVersionCmd : List Nat := [0x90, 0x60, 0x00, 0x00, 0x00]

/-- The enveloped DESFire continuation frame sent by `getDESFireInfo`:
`90 AF 00 00 00`. -/
def dfContinueCmd : List Nat := [0x90, 0xAF, 0x00, 0x00, 0x00]

/-- The factory default Classic key `FF FF FF FF FF FF` (`tryClassic`). -/
def defaultKey : List Nat := List.replicate 6 0xFF

/-- Result-only part of `Reader.readPage`: require a transmit success, a
response of at least 2 bytes ending in `90 00`, and return the first 4
bytes.  The Go source returns `rsp[:4]`, which panics when the response
is shorter than 4 bytes; that panic is modelled as an error. -/
def readPageResult (card : Card) (page : Nat) : Except String (List Nat) :=
  match card (readPageCmd page) with
  | none => .error "read failed"
  | some rsp =>
    if rsp.length < 2 then .error "invalid response length"
    else if rsp.getD (rsp.length - 2) 0 = 0x90 ∧ rsp.getD (rsp.length - 1) 0 = 0x00 then
      if rsp.length < 4 then .error "short response (Go slice panic)"
      else .ok (rsp.take 4)
    else .error "read error"

/-- Go `Reader.readPage` with its transport trace (always exactly one frame). -/
def readPage (card : Card) (page : Nat) : Except String (List Nat) × List (List Nat) :=
  (readPageResult card page, [readPageCmd page])

/-- Result-only part of `Reader.readBlock`: like `readPage` but strips the
two status bytes instead of truncating to 4. -/
def readBlockResult (card : Card) (block : Nat) : Except String (List Nat) :=
  match card (readBlockCmd block) with
  | none => .error "read failed"
  | some rsp =>
    if rsp.length < 2 then .error "invalid response length"
    else if rsp.getD (rsp.length - 2) 0 = 0x90 ∧ rsp.getD (rsp.length - 1) 0 = 0x00 then
      .ok (rsp.take (rsp.length - 2))
    else .error "read error"

/-- Go `Reader.readBlock` with its transport trace. -/
def readBlock (card : Card) (block : Nat) : Except String (List Nat) × List (List Nat) :=
  (readBlockResult card block, [readBlockCmd block])

/-- Go `Reader.classicLoadKey`: validate the 6-byte key, transmit, require
the exact 2-byte response `90 00`. -/
def classicLoadKey (card : Card) (keyNumber : Nat) (key : List Nat) :
    Except String Unit × List (List Nat) :=
  if key.length ≠ 6 then (.error "key must be 6 bytes", [])
  else
    let cmd := classicLoadKeyCmd keyNumber key
    (match card cmd with
     | none => .error "failed to load key"
     | some rsp =>
       if rsp.length = 2 ∧ rsp.getD 0 0 = 0x90 ∧ rsp.getD 1 0 = 0x00 then .ok ()
       else .error "key load failed",
     [cmd])

/-- Go `Reader.classicAuthenticate`: transmit the authenticate APDU, require
the exact 2-byte response `90 00`. -/
def classicAuthenticate (card : Card) (block keyType keyNumber : Nat) :
    Except String Unit × List (List Nat) :=
  (match card (classicAuthCmd block keyType keyNumber) with
   | none => .error "authentication failed"
   | some rsp =>
     if rsp.length = 2 ∧ rsp.getD 0 0 = 0x90 ∧ rsp.getD 1 0 = 0x00 then .ok ()
     else .error "authentication error",
   [classicAuthCmd block keyType keyNumber])

/-- Go `Reader.tryClassic`: load the factory key, authenticate the 4K sector
trailer `0x40` first (success ⇒ 4096 bytes), then block `0x00`
(success ⇒ 1024 bytes); on either success re-read block 0 (cached in the
Go struct; the cache itself is unobserved by the claims and omitted). -/
def tryClassic (card : Card) : (Bool × Nat) × List (List Nat) :=
  match classicLoadKey card 0x00 defaultKey with
  | (.error _, t) => ((false, 0), t)
  | (.ok _, t1) =>
    match classicAuthenticate card 0x40 0x60 0x00 with
    | (.ok _, t2) => ((true, 4096), t1 ++ t2 ++ (readBlock card 0).2)
    | (.error _, t2) =>
      match classicAuthenticate card 0x00 0x60 0x00 with
      | (.ok _, t3) => ((true, 1024), t1 ++ t2 ++ t3 ++ (readBlock card 0).2)
      | (.error _, t3) => ((false, 0), t1 ++ t2 ++ t3)

/-- Go `Reader.tryUltralight`: native read of page 4; present iff the
transmit succeeds with at least 2 bytes. -/
def tryUltralight (card : Card) : Bool × List (List Nat) :=
  ((match card ultralightProbeCmd with
    | none => false
    | some response => decide (2 ≤ response.length)),
   [ultralightProbeCmd])

/-- Go `Reader.tryNTAG`: match the 4-byte capability container (page 3)
against the static NTAG signature table; no transport exchange. -/
def tryNTAG (page3 : Option (List Nat)) : Bool × Nat :=
  match page3 with
  | none => (false, 0)
  | some p =>
    let cc := p.take 4
    if cc = [0xE1, 0x10, 0x12, 0x00] then (true, 144)
    else if cc = [0xE1, 0x10, 0x3F, 0x00] then (true, 504)
    else if cc = [0xE1, 0x10, 0x6D, 0x00] then (true, 888)
    else if cc = [0xE1, 0x10, 0x3E, 0x00] then (true, 496)
    else (false, 0)

/-- Go `Reader.tryDESFireVersion` (boolean verdict only; the returned raw
bytes are discarded by `detectCardType`): present iff the enveloped
version probe transmits successfully with more than 2 bytes. -/
def tryDESFireVersion (card : Card) : Bool × List (List Nat) :=
  ((match card dfVersionCmd with
    | none => false
    | some rsp => decide (2 < rsp.length)),
   [dfVersionCmd])

/-- Go `Reader.getCardAttributes`: NTAG capability-container verdict first
(no exchange), then the Classic probe, then the Ultralight probe, then a
raw attribute fetch whose first two bytes are ATQA and third is SAK.
Result is `(SAK, ATQA, sizeInBytes)`. -/
def getCardAttributes (card : Card) (page3 : Option (List Nat)) :
    Except String (Nat × List Nat × Nat) × List (List Nat) :=
  let n := tryNTAG page3
  if n.1 then
    (if (480 < n.2 ∧ n.2 ≤ 504) ∨ n.2 = 888 then .ok (0x00, [0x00, 0x00], n.2)
     else if n.2 = 144 then .ok (0x44, [0x00, 0x44], n.2)
     else .ok (0x00, [], n.2), [])
  else
    let c := tryClassic card
    if c.1.1 then
      (if c.1.2 = 1024 then (.ok (0x08, [0x00, 0x04], c.1.2), c.2)
       else (.ok (0x18, [0x00, 0x02], c.1.2), c.2))
    else
      let u := tryUltralight card
      if u.1 then (.ok (0x00, [0x00, 0x44], 0), c.2 ++ u.2)
      else
        let tr := c.2 ++ u.2 ++ [selectAllCmd]
        match card selectAllCmd with
        | none => (.error "failed to transmit", tr)
        | some resp =>
          if resp.length < 4 ∨ ¬ resp.drop (resp.length - 2) = [0x90, 0x00] then
            (.error "invalid response length", tr)
          else (.ok (resp.getD 2 0, resp.take 2, 0), tr)

/-- Go `Reader.getDESFireStorageSize`: storage-size code to byte capacity. -/
def getDESFireStorageSize (byteInfo : Nat) : Nat :=
  if byteInfo = 0x16 then 2048
  else if byteInfo = 0x18 then 4096
  else if byteInfo = 0x1A then 8192
  else 0

/-- Go `Reader.getDESFireInfo`: version probe, then on a trailing `0xAF`
status the continuation frame; the name comes from the software-major
byte (index 3) of the second frame, disambiguated by the hardware-major
byte of the first frame when ambiguous; the capacity comes from the
storage-size code (index 5) of the second frame.  The Go source indexes `rsp[3]` and
`rsp2[5]` without length checks; the resulting panics on short frames
are modelled as errors. -/
def getDESFireInfo (card : Card) : Except String (String × Nat × Bool) × List (List Nat) :=
  match card dfVersionCmd with
  | none => (.ok ("", 0, false), [dfVersionCmd])
  | some rsp =>
    if rsp.length ≤ 2 then (.ok ("", 0, false), [dfVersionCmd])
    else if rsp.length < 4 then (.error "index out of range (Go panic)", [dfVersionCmd])
    else
      let hwMajor := rsp.getD 3 0
      if rsp.getD (rsp.length - 1) 0 = 0xAF then
        match card dfContinueCmd with
        | none => (.ok ("", 0, false), [dfVersionCmd, dfContinueCmd])
        | some rsp2 =>
          if rsp2.length < 6 then
            (.error "index out of range (Go panic)", [dfVersionCmd, dfContinueCmd])
          else
            let size := rsp2.getD 5 0
            let swMajor := rsp2.getD 3 0
            let name :=
              if swMajor = 0x01 then "DESFire V1"
              else if swMajor = 0x03 then
                (if hwMajor = 0x33 then "DESFire V3" else "DESFire V2")
              else if swMajor = 0x12 then "DESFire V2"
              else if swMajor = 0x22 then "DESFire V2"
              else if swMajor = 0x33 then "DESFire V3"
              else "DESFire [Version unknown]"
            (.ok (name, getDESFireStorageSize size, true), [dfVersionCmd, dfContinueCmd])
      else (.ok ("", 0, true), [dfVersionCmd])

/-- Hex digit as in the Go `%x` formatting. -/
def hexChar (n : Nat) : String :=
  ["0", "1", "2", "3", "4", "5", "6", "7", "8", "9", "a", "b", "c", "d", "e", "f"].getD n "0"

/-- Go `%02x` of a byte. -/
def hexByte (b : Nat) : String := hexChar (b / 16 % 16) ++ hexChar (b % 16)

/-- Go `hex.EncodeToString`. -/
def hexBytes (l : List Nat) : String := String.join (l.map hexByte)

/-- One row of the static `(ATQA, SAK)` classification table of
`getCardType`. -/
structure CardTypeEntry where
  atqa : List Nat
  sak : Nat
  name : String
  details : String

/-- The static classification table of `getCardType`, in source order. -/
def cardTypes : List CardTypeEntry :=
  [⟨[0x00, 0x04], 0x08, MIFARE_CLASSIK_1K, "1KB, CRYPTO1"⟩,
   ⟨[0x00, 0x02], 0x18, MIFARE_CLASSIK_4K, "4KB, CRYPTO1"⟩,
   ⟨[0x00, 0x44], 0x09, MIFARE_MINI, "320B, CRYPTO1"⟩,
   ⟨[0x00, 0x44], 0x00, MIFARE_ULTRALIGHT, "Check CC for specifics"⟩,
   ⟨[0x00, 0x00], 0x00, NTAG, "Check CC: 504B/888B"⟩,
   ⟨[0x03, 0x44], 0x20, MIFARE_DESFIRE, "2-16KB, AES"⟩,
   ⟨[0x00, 0x04], 0x0C, MIFARE_PLUS_SE_2K, "2KB, CRYPTO1/AES"⟩,
   ⟨[0x00, 0x02], 0x1C, MIFARE_PLUS_SE_4K, "4KB, CRYPTO1/AES"⟩,
   ⟨[0x0C, 0x00], 0x00, TOPAZ_JEWEL, "96-512B, no auth"⟩,
   ⟨[0x00, 0x43], 0x11, FELI_CA, "Variable, FeliCa-specific"⟩]

/-- First-match scan of `getCardType` over the static table; the NTAG row
reformats its details from the measured size, the DESFire row refines
name/size through `getDESFireInfo`. -/
def getCardTypeLoop (card : Card) (atqa : List Nat) (sak size : Nat) :
    List CardTypeEntry → Except String (String × Nat) × List (List Nat)
  | [] =>
    (.ok ("Unknown (ATQA=" ++ hexBytes atqa ++ ", SAK=" ++ hexByte sak ++ ")", 0), [])
  | ct :: rest =>
    if atqa = ct.atqa ∧ sak = ct.sak then
      if ct.name = NTAG then
        (.ok (ct.name ++ " (" ++ toString size ++ "B)", size), [])
      else if ct.name = MIFARE_DESFIRE then
        match getDESFireInfo card with
        | (.error e, t) => (.error e, t)
        | (.ok (nm, sz, infoOk), t) =>
          if infoOk then (.ok (nm ++ " (" ++ toString sz ++ "B)", sz), t)
          else (.ok (ct.name ++ " (" ++ ct.details ++ ")", size), t)
    else (.ok (ct.name ++ " (" ++ ct.details ++ ")", size), [])
    else getCardTypeLoop card atqa sak size rest

/-- Go `Reader.getCardType`. -/
def getCardType (card : Card) (atqa : List Nat) (sak size : Nat) :
    Except String (String × Nat) × List (List Nat) :=
  getCardTypeLoop card atqa sak size cardTypes

/-- Go `Reader.detectCardType`, returning `(cardType, capacity, SAK, ATQA)`
plus the transport trace.  The external `scard.Status` call supplying
ATR/protocol is not repository code and is omitted (it does not
influence classification or capacity); the cached `block0`/`page0..2`
struct fields are likewise unobserved and dropped, though the frames
that fill them appear in the trace. -/
def detectCardType (card : Card) :
    Except String (String × Nat × Nat × List Nat) × List (List Nat) :=
  let d := tryDESFireVersion card
  let pre : Option (List Nat) × List (List Nat) :=
    if d.1 then (none, [])
    else
      ((readPage card 3).1.toOption,
       (readBlock card 0).2 ++ (readPage card 0).2 ++ (readPage card 1).2 ++
         (readPage card 2).2 ++ (readPage card 3).2)
  match getCardAttributes card pre.1 with
  | (.error e, t) => (.error e, d.2 ++ pre.2 ++ t)
  | (.ok (sak0, atqa0, size0), t) =>
    let sak := if d.1 then 0x20 else sak0
    let atqa := if d.1 then (atqa0.set 0 0x03).set 1 0x44 else atqa0
    match getCardType card atqa sak size0 with
    | (.error e, t2) => (.error e, d.2 ++ pre.2 ++ t ++ t2)
    | (.ok (name, size1), t2) =>
      (.ok (name, size1, sak, atqa), d.2 ++ pre.2 ++ t ++ t2)

end Hardware

namespace Ultralight

/-- Go `CmdRead = 0x30`. -/
def CmdRead : Nat := 0x30

/-- Go `CmdWrite = 0xA2`. -/
def CmdWrite : Nat := 0xA2

/-- Go `TotalPages = 48` (Ultralight C memory layout). -/
def TotalPages : Nat := 48

/-- Go `KeyPage = 44`: the 3DES key occupies pages 44-47. -/
def KeyPage : Nat := 44

/-- Go `UltralightC.Transceive` (native mode): transmit the raw command;
reject responses shorter than 2 bytes; strip a trailing `90 00` status
pair when present, otherwise return the whole response as payload. -/
def Transceive (card : Card) (cmd : List Nat) : Except String (List Nat) :=
  match card cmd with
  | none => .error "transmit error"
  | some response =>
    if response.length < 2 then .error "response too short"
    else if response.drop (response.length - 2) = [0x90, 0x00] then
      .ok (response.take (response.length - 2))
    else .ok response

/-- Go `UltralightC.ReadPage`: page-range guard before any exchange, then a
native read (which returns 4 pages) truncated to the requested page.
The second component is the transport trace. -/
def ReadPage (card : Card) (pageAddr : Nat) : Except String (List Nat) × List (List Nat) :=
  if TotalPages ≤ pageAddr then (.error "page address out of range", [])
  else
    let cmd := [CmdRead, pageAddr]
    (match Transceive card cmd with
     | .error e => .error e
     | .ok resp =>
       if resp.length < 16 then .error "unexpected response length"
       else .ok (resp.take 4),
     [cmd])

/-- Go `UltralightC.WritePage`: page-range guard, then exact-4-byte data
guard, both before any exchange; then the native write command, accepted
on an ACK (`0x0A`) or `0x00` leading byte. -/
def WritePage (card : Card) (pageAddr : Nat) (data : List Nat) :
    Except String Unit × List (List Nat) :=
  if TotalPages ≤ pageAddr then (.error "page address out of range", [])
  else if data.length ≠ 4 then (.error "data must be exactly 4 bytes", [])
  else
    let cmd := [CmdWrite, pageAddr] ++ data
    (match Transceive card cmd with
     | .error _ => .error "write error"
     | .ok resp =>
       if 0 < resp.length ∧ (resp.getD 0 0 = 0x0A ∨ resp.getD 0 0 = 0x00) then .ok ()
       else .error "write failed: unexpected response",
     [cmd])

/-- The byte-order encoding `UltralightC.ChangeKey` applies before
writing the key to pages 44-47: `reversedKey[i] = newKey[7-i]` and
`reversedKey[i+8] = newKey[15-i]` for `i = 0..7`, i.e. each 8-byte half
reversed independently. -/
def changeKeyEncode (newKey : List Nat) : List Nat :=
  ((List.range 8).map fun i => newKey.getD (7 - i) 0) ++
    ((List.range 8).map fun i => newKey.getD (15 - i) 0)

/-- The decoding `UltralightC.ReadKey` applies to the raw pages 44-47:
`actualKey[7-i] = keyData[i]` and `actualKey[15-i] = keyData[i+8]` for
`i = 0..7`; solving for the output position `j` this is
`actualKey[j] = keyData[7-j]` for `j < 8` and
`actualKey[j] = keyData[(15-j)+8] = keyData[23-j]` for `8 ≤ j < 16` —
the same half-reversal as `changeKeyEncode`. -/
def readKeyDecode (keyData : List Nat) : List Nat :=
  ((List.range 8).map fun j => keyData.getD (7 - j) 0) ++
    ((List.range 8).map fun j => keyData.getD (23 - (8 + j)) 0)

/-- Go `rotateLeft` (ultralight copy): one-byte left rotation; identical to
the desfire copy. -/
def rotateLeft : List Nat → List Nat
  | [] => []
  | a :: rest => rest ++ [a]

end Ultralight

/-! ## Concrete simulated cards and transcripts used by witnesses -/

/-- A simulated card that answers only the Classic key-load and
4K-trailer authenticate APDUs (with success) and fails every other
frame — the canonical "Classic 4K" identification scenario. -/
def classicOnlyCard : Card := fun cmd =>
  if cmd = Hardware.classicLoadKeyCmd 0 Hardware.defaultKey then some [0x90, 0x00]
  else if cmd = Hardware.classicAuthCmd 0x40 0x60 0 then some [0x90, 0x00]
  else none

/-- A simulated card whose DESFire probe fails and whose Classic
key-load and 4K-trailer authenticate APDUs succeed, but whose page-3
read returns the NTAG213 capability container. -/
def ntagCcClassicCard : Card := fun cmd =>
  if cmd = Hardware.classicLoadKeyCmd 0 Hardware.defaultKey then some [0x90, 0x00]
  else if cmd = Hardware.classicAuthCmd 0x40 0x60 0 then some [0x90, 0x00]
  else if cmd = Hardware.readPageCmd 3 then some [0xE1, 0x10, 0x12, 0x00, 0x90, 0x00]
  else none

/-- A simulated DESFire card: version probe returns a first frame with
hardware major `0x33` and a trailing additional-frame status, and the
continuation frame carries software major `0x03` and storage code
`0x18`. -/
def desfireV3Card : Card := fun cmd =>
  if cmd = Hardware.dfVersionCmd then some [0, 0, 0, 0x33, 0xAF]
  else if cmd = Hardware.dfContinueCmd then some [0, 0, 0, 0x03, 0, 0x18]
  else none

/-! ## Helper lemmas -/

namespace Desfire

/-- Applying `Transceive` to a transcript whose next scripted response
is present: the payload is the status interpretation of that response and
the built APDU is appended to the log. -/
theorem Transceive_cons (r : List Nat) (rest : List (Option (List Nat)))
    (log : List (List Nat)) (cmd : List Nat) :
    Transceive ⟨some r :: rest, log⟩ cmd =
      (transceiveStatus r, ⟨rest, log ++ [buildAPDU cmd]⟩) := rfl

/-- Unfolding step of the chunking loop at positive fuel. -/
theorem chunks16Go_succ (fuel a : Nat) (rest : List Nat) :
    chunks16Go (fuel + 1) (a :: rest) =
      ((a :: rest).take 16) :: chunks16Go fuel ((a :: rest).drop 16) := rfl

/-- A byte string of exactly one AES block is a single chunk. -/
theorem chunks16_of_length_16 (l : List Nat) (h : l.length = 16) :
    chunks16 l = [l] := by
  obtain ⟨a, t, rfl⟩ := List.exists_cons_of_ne_nil (show l ≠ [] by rintro rfl; simp at h)
  show chunks16Go (a :: t).length (a :: t) = [a :: t]
  rw [h]
  show chunks16Go (15 + 1) (a :: t) = [a :: t]
  rw [chunks16Go_succ, List.take_of_length_le (le_of_eq h),
    List.drop_eq_nil_of_le (le_of_eq h)]
  rfl

/-- Decrypting one AES block: CBC with a zero IV reduces to the block
decryption XORed with the zero IV. -/
theorem decryptAES_take16 (D : List Nat → List Nat) (l : List Nat) (h : 16 ≤ l.length) :
    decryptAES D (l.take 16) = .ok (xorBytes (D (l.take 16)) zeroIV16) := by
  have hlen : (l.take 16).length = 16 := by
    simp only [List.length_take]
    omega
  unfold decryptAES
  rw [if_neg (by simp [hlen]), chunks16_of_length_16 _ hlen]
  simp [cbcDecBlocks]

/-- Explicit branch form of `transceiveStatus` on responses of at least
two bytes. -/
theorem transceiveStatus_eq (resp : List Nat) (hn : ¬ resp.length < 2) :
    transceiveStatus resp =
      (if resp.getD (resp.length - 2) 0 = 0x91 then
        if resp.getD (resp.length - 1) 0 ≠ StatusSuccess ∧
            resp.getD (resp.length - 1) 0 ≠ StatusAdditionalFrame then
          .error "DESFire error"
        else .ok (resp.take (resp.length - 2))
      else if resp.getD (resp.length - 2) 0 = 0x90 ∧ resp.getD (resp.length - 1) 0 = 0x00 then
        .ok (resp.take (resp.length - 2))
      else .error "card error") := by
  unfold transceiveStatus
  rw [if_neg hn]

/-- Function `rotateLeft` is `List.rotate` by one. -/
theorem rotateLeft_eq_rotate (x : List Nat) : rotateLeft x = x.rotate 1 := by
  cases x with
  | nil => rfl
  | cons a t =>
    have h := List.rotate_cons_succ t a 0
    simpa [rotateLeft] using h.symm

/-- Iterating `rotateLeft` is `List.rotate`. -/
theorem iterate_rotateLeft (n : Nat) (x : List Nat) :
    rotateLeft^[n] x = x.rotate n := by
  induction n generalizing x with
  | zero => simp
  | succ k ih =>
    rw [Function.iterate_succ_apply, ih, rotateLeft_eq_rotate, List.rotate_rotate,
      Nat.add_comm]

end Desfire

namespace Hardware

/-- The key-load trace is always the single load APDU (the factory key
passes the 6-byte guard). -/
theorem classicLoadKey_trace (c : Card) :
    (classicLoadKey c 0 defaultKey).2 = [classicLoadKeyCmd 0 defaultKey] := by
  simp [classicLoadKey, defaultKey]

/-- The authenticate trace is always the single authenticate APDU. -/
theorem classicAuthenticate_trace (c : Card) (b kt kn : Nat) :
    (classicAuthenticate c b kt kn).2 = [classicAuthCmd b kt kn] := rfl

end Hardware

/-! ## Claims -/

/-- C5: the DESFire identification probe maps the storage-size code of the
second frame through `{0x16 ↦ 2048, 0x18 ↦ 4096, 0x1A ↦ 8192}`
(everything else to 0), and when the software-major byte of the second
frame is `0x03` it classifies DESFire V3 exactly when the hardware-major
byte of the first frame is `0x33`, otherwise DESFire V2. -/
theorem claim_C5_desfire_info (card : Card) (r1 r2 : List Nat)
    (h1 : card Hardware.dfVersionCmd = some r1)
    (h1len : 4 ≤ r1.length)
    (haf : r1.getD (r1.length - 1) 0 = 0xAF)
    (h2 : card Hardware.dfContinueCmd = some r2)
    (h2len : 6 ≤ r2.length) :
    (∃ nm, (Hardware.getDESFireInfo card).1 =
      .ok (nm, Hardware.getDESFireStorageSize (r2.getD 5 0), true)) ∧
    (r2.getD 3 0 = 0x03 →
      (Hardware.getDESFireInfo card).1 =
        .ok ((if r1.getD 3 0 = 0x33 then "DESFire V3" else "DESFire V2"),
          Hardware.getDESFireStorageSize (r2.getD 5 0), true)) ∧
    Hardware.getDESFireStorageSize 0x16 = 2048 ∧
    Hardware.getDESFireStorageSize 0x18 = 4096 ∧
    Hardware.getDESFireStorageSize 0x1A = 8192 ∧
    (∀ b, b ≠ 0x16 → b ≠ 0x18 → b ≠ 0x1A → Hardware.getDESFireStorageSize b = 0) := by
  have hn2 : ¬ r1.length ≤ 2 := by omega
  have hn4 : ¬ r1.length < 4 := by omega
  have hn6 : ¬ r2.length < 6 := by omega
  have hred : (Hardware.getDESFireInfo card).1 =
      .ok ((if r2.getD 3 0 = 0x01 then "DESFire V1"
            else if r2.getD 3 0 = 0x03 then
              (if r1.getD 3 0 = 0x33 then "DESFire V3" else "DESFire V2")
            else if r2.getD 3 0 = 0x12 then "DESFire V2"
            else if r2.getD 3 0 = 0x22 then "DESFire V2"
            else if r2.getD 3 0 = 0x33 then "DESFire V3"
            else "DESFire [Version unknown]"),
        Hardware.getDESFireStorageSize (r2.getD 5 0), true) := by
    unfold Hardware.getDESFireInfo
    rw [h1]
    simp only [h2, hn2, hn4, haf, if_neg, if_true, if_false, ite_false, ite_true]
    rw [if_neg hn6]
  refine ⟨⟨_, hred⟩, fun hsw => ?_, rfl, rfl, rfl, ?_⟩
  · rw [hred, hsw]
    norm_num
  · intro b hb1 hb2 hb3
    simp [Hardware.getDESFireStorageSize, hb1, hb2, hb3]

/-- C5 witness: a concrete simulated DESFire card with hardware major
`0x33`, software major `0x03` and storage code `0x18`. -/
theorem claim_C5_witness :
    desfireV3Card Hardware.dfVersionCmd = some [0, 0, 0, 0x33, 0xAF] ∧
      (Hardware.getDESFireInfo desfireV3Card).1 = .ok ("DESFire V3", 4096, true) := by
  have h := (claim_C5_desfire_info desfireV3Card [0, 0, 0, 0x33, 0xAF] [0, 0, 0, 0x03, 0, 0x18]
    (by rfl) (by decide) (by decide) (by rfl) (by decide)).2.1 (by decide)
  exact ⟨by rfl, by rw [h]; rfl⟩

/-- C6: on every successful `AuthenticateAES` run the session context
stores the master key verbatim as the session key (no RndA/RndB
diversification), a 16-zero-byte IV, and a zero command counter. -/
theorem claim_C6_session_fields (E D : List Nat → List Nat) (keyNo : Nat)
    (key rndA : List Nat) (session0 : Option Desfire.SessionKey) (s : Desfire.TxState)
    (h : (Desfire.AuthenticateAES E D keyNo key rndA session0 s).1 = .ok ()) :
    (Desfire.AuthenticateAES E D keyNo key rndA session0 s).2.1 =
      some ⟨Desfire.KeyTypeAES, key, key, [], List.replicate 16 0, 0⟩ := by
  unfold Desfire.AuthenticateAES at h ⊢
  repeat' split at h
  all_goals try simp_all
  all_goals repeat' split at h
  all_goals try simp_all
  all_goals repeat' split
  all_goals first | rfl | omega

/-- C6 witness: a concrete successful transcript with the identity block
cipher. -/
theorem claim_C6_witness :
    (Desfire.AuthenticateAES id id 0 (List.replicate 16 0) (List.replicate 16 1) none
        ⟨[some (List.replicate 16 0 ++ [0x91, 0x00]),
          some (List.replicate 16 1 ++ [0x91, 0x00])], []⟩).2.1 =
      some ⟨Desfire.KeyTypeAES, List.replicate 16 0, List.replicate 16 0, [],
        List.replicate 16 0, 0⟩ :=
  claim_C6_session_fields id id 0 (List.replicate 16 0) (List.replicate 16 1) none
    ⟨[some (List.replicate 16 0 ++ [0x91, 0x00]),
      some (List.replicate 16 1 ++ [0x91, 0x00])], []⟩ (by rfl)

/-- C7: for every non-empty byte string `x` of length `n`, applying
`rotateLeft` once and then `n - 1` more times returns `x`; equivalently
`rotateLeft` iterated `n` times is the identity.  The desfire and
ultralight copies of `rotateLeft` are the same function. -/
theorem claim_C7_rotateLeft_iterate (x : List Nat) (h : x ≠ []) :
    Desfire.rotateLeft^[x.length - 1] (Desfire.rotateLeft x) = x ∧
    Desfire.rotateLeft^[x.length] x = x ∧
    (∀ y : List Nat, Desfire.rotateLeft y = Ultralight.rotateLeft y) := by
  have hlen : 1 ≤ x.length := List.length_pos.mpr h
  refine ⟨?_, ?_, ?_⟩
  · have hstep : Desfire.rotateLeft^[x.length - 1] (Desfire.rotateLeft x) =
        Desfire.rotateLeft^[x.length - 1 + 1] x :=
      (Function.iterate_succ_apply _ _ _).symm
    rw [hstep, Nat.sub_add_cancel hlen, Desfire.iterate_rotateLeft, List.rotate_length]
  · rw [Desfire.iterate_rotateLeft, List.rotate_length]
  · intro y
    cases y <;> rfl

/-- C7 witness: concrete evaluation on the 3-byte string `[1, 2, 3]`. -/
theorem claim_C7_witness :
    ([1, 2, 3] : List Nat) ≠ [] ∧
      Desfire.rotateLeft^[2] (Desfire.rotateLeft [1, 2, 3]) = [1, 2, 3] :=
  ⟨by decide, (claim_C7_rotateLeft_iterate [1, 2, 3] (by decide)).1⟩

/-- C8 counterexample: at block size 256 the pad amount is `k = 256` but
the appended bytes have value `byte(256) = 0`, not `k`, refuting the
claimed "k bytes each of value k" for arbitrary positive block sizes. -/
theorem claim_C8_counterexample :
    Desfire.padData [] 256 = List.replicate 256 0 ∧
    Desfire.padData [] 256 ≠ List.replicate 256 256 := by
  exact ⟨rfl, by decide⟩

/-- C8 (amended): for positive `blockSize`, `padData` appends
`k = blockSize - len % blockSize` bytes (never zero, so an aligned input
gains a whole block) each of value `k % 256` — which equals `k` whenever
`blockSize ≤ 255`, in particular for the AES and DES block sizes the
package uses — making the output length a strictly larger multiple of
`blockSize`; a 32-byte input is padded to 48 bytes at the AES block
size, as in the `RndA ++ RndB-rotated` handshake encryption. -/
theorem claim_C8_padData (data : List Nat) (blockSize : Nat) (h : 0 < blockSize) :
    Desfire.padData data blockSize =
      data ++ List.replicate (blockSize - data.length % blockSize)
        ((blockSize - data.length % blockSize) % 256) ∧
    (blockSize ≤ 255 → Desfire.padData data blockSize =
      data ++ List.replicate (blockSize - data.length % blockSize)
        (blockSize - data.length % blockSize)) ∧
    blockSize - data.length % blockSize ≠ 0 ∧
    blockSize - data.length % blockSize ≤ blockSize ∧
    (Desfire.padData data blockSize).length =
      data.length + (blockSize - data.length % blockSize) ∧
    (Desfire.padData data blockSize).length % blockSize = 0 ∧
    data.length < (Desfire.padData data blockSize).length ∧
    (data.length = 32 →
      Desfire.padData data 16 = data ++ List.replicate 16 16 ∧
      (Desfire.padData data 16).length = 48) := by
  have hmod : data.length % blockSize < blockSize := Nat.mod_lt _ h
  have hk : blockSize - data.length % blockSize ≠ 0 := by omega
  have hkle : blockSize - data.length % blockSize ≤ blockSize := by omega
  have hpad : Desfire.padData data blockSize =
      data ++ List.replicate (blockSize - data.length % blockSize)
        ((blockSize - data.length % blockSize) % 256) := by
    simp only [Desfire.padData]
    rw [if_neg hk]
  have hlen : (Desfire.padData data blockSize).length =
      data.length + (blockSize - data.length % blockSize) := by
    rw [hpad]
    simp
  refine ⟨hpad, ?_, hk, hkle, hlen, ?_, ?_, ?_⟩
  · intro h255
    rw [hpad,
      Nat.mod_eq_of_lt (show blockSize - data.length % blockSize < 256 by omega)]
  · have hdm := Nat.div_add_mod data.length blockSize
    have h1 : data.length + (blockSize - data.length % blockSize) =
        blockSize * (data.length / blockSize) + blockSize := by
      omega
    rw [hlen, h1, ← Nat.mul_succ, Nat.mul_mod_right]
  · omega
  · intro h32
    have h16 : (16 : Nat) - data.length % 16 ≠ 0 := by omega
    have hfirst : Desfire.padData data 16 = data ++ List.replicate 16 16 := by
      simp only [Desfire.padData]
      rw [if_neg h16, h32]
    refine ⟨hfirst, ?_⟩
    rw [hfirst]
    simp [h32]

/-- C8 witness: concrete evaluation at a 3-byte input and the AES block
size. -/
theorem claim_C8_witness :
    (0 : Nat) < 16 ∧
      Desfire.padData [1, 2, 3] 16 = [1, 2, 3] ++ List.replicate 13 (13 % 256) :=
  ⟨by decide, (claim_C8_padData [1, 2, 3] 16 (by decide)).1⟩

/-- C9: the byte-order encoding `ChangeKey` applies before writing the
key to pages 44-47 (each 8-byte half reversed independently) is an
involution, `ReadKey` decoding is the same transformation, and decoding
the encoded key recovers every 16-byte key exactly. -/
theorem claim_C9_key_codec (b0 b1 b2 b3 b4 b5 b6 b7 b8 b9 b10 b11 b12 b13 b14 b15 : Nat) :
    Ultralight.readKeyDecode (Ultralight.changeKeyEncode
        [b0, b1, b2, b3, b4, b5, b6, b7, b8, b9, b10, b11, b12, b13, b14, b15]) =
      [b0, b1, b2, b3, b4, b5, b6, b7, b8, b9, b10, b11, b12, b13, b14, b15] ∧
    Ultralight.changeKeyEncode (Ultralight.changeKeyEncode
        [b0, b1, b2, b3, b4, b5, b6, b7, b8, b9, b10, b11, b12, b13, b14, b15]) =
      [b0, b1, b2, b3, b4, b5, b6, b7, b8, b9, b10, b11, b12, b13, b14, b15] ∧
    (∀ keyData : List Nat,
      Ultralight.readKeyDecode keyData = Ultralight.changeKeyEncode keyData) := by
  refine ⟨rfl, rfl, ?_⟩
  intro keyData
  unfold Ultralight.readKeyDecode Ultralight.changeKeyEncode
  congr 1

/-- C1: over a complete handshake transcript (both card replies framed
as successes carrying at least one AES block), if the final card reply
decrypts (AES-CBC, zero IV) to the one-byte left rotation of the host
RndA then `AuthenticateAES` returns success and sets a non-nil session
on the DESFire object; if the decrypted final reply differs from
`rotateLeft rndA` in any byte, it returns an error and the session field
is left unchanged. -/
theorem claim_C1_authenticateAES (E D : List Nat → List Nat) (keyNo : Nat)
    (key rndA r1 r2 p1 p2 dec : List Nat) (session0 : Option Desfire.SessionKey)
    (log : List (List Nat))
    (hkey : key.length = 16)
    (h1 : Desfire.transceiveStatus r1 = .ok p1) (h1len : 16 ≤ p1.length)
    (h2 : Desfire.transceiveStatus r2 = .ok p2) (h2len : 16 ≤ p2.length)
    (hdec : Desfire.decryptAES D (p2.take 16) = .ok dec) :
    (dec = Desfire.rotateLeft rndA →
      (Desfire.AuthenticateAES E D keyNo key rndA session0
          ⟨[some r1, some r2], log⟩).1 = .ok () ∧
      (Desfire.AuthenticateAES E D keyNo key rndA session0
          ⟨[some r1, some r2], log⟩).2.1 =
        some ⟨Desfire.KeyTypeAES, key, key, [], List.replicate 16 0, 0⟩) ∧
    (dec ≠ Desfire.rotateLeft rndA →
      (∃ e, (Desfire.AuthenticateAES E D keyNo key rndA session0
          ⟨[some r1, some r2], log⟩).1 = .error e) ∧
      (Desfire.AuthenticateAES E D keyNo key rndA session0
          ⟨[some r1, some r2], log⟩).2.1 = session0) := by
  have hn1 : ¬ p1.length < 16 := by omega
  have hn2 : ¬ p2.length < 16 := by omega
  constructor
  · intro heq
    constructor
    · simp only [Desfire.AuthenticateAES, hkey, Desfire.Transceive_cons, h1, hn1,
        Desfire.decryptAES_take16 D p1 h1len, h2, hn2, hdec, heq]
      simp
    · simp only [Desfire.AuthenticateAES, hkey, Desfire.Transceive_cons, h1, hn1,
        Desfire.decryptAES_take16 D p1 h1len, h2, hn2, hdec, heq]
      simp
  · intro hne
    have hne2 : ¬ (Desfire.rotateLeft rndA = dec) := fun hcc => hne hcc.symm
    constructor
    · refine ⟨"authentication failed: RndA mismatch", ?_⟩
      simp only [Desfire.AuthenticateAES, hkey, Desfire.Transceive_cons, h1, hn1,
        Desfire.decryptAES_take16 D p1 h1len, h2, hn2, hdec, hne2]
      simp
    · simp only [Desfire.AuthenticateAES, hkey, Desfire.Transceive_cons, h1, hn1,
        Desfire.decryptAES_take16 D p1 h1len, h2, hn2, hdec, hne2]
      simp

/-- C1 witness: a concrete success transcript with the identity block
cipher, the all-zero key and an all-ones RndA. -/
theorem claim_C1_witness :
    (Desfire.AuthenticateAES id id 0 (List.replicate 16 0) (List.replicate 16 1) none
        ⟨[some (List.replicate 16 0 ++ [0x91, 0x00]),
          some (List.replicate 16 1 ++ [0x91, 0x00])], []⟩).1 = .ok () ∧
    (Desfire.AuthenticateAES id id 0 (List.replicate 16 0) (List.replicate 16 1) none
        ⟨[some (List.replicate 16 0 ++ [0x91, 0x00]),
          some (List.replicate 16 1 ++ [0x91, 0x00])], []⟩).2.1 =
      some ⟨Desfire.KeyTypeAES, List.replicate 16 0, List.replicate 16 0, [],
        List.replicate 16 0, 0⟩ :=
  (claim_C1_authenticateAES id id 0 (List.replicate 16 0) (List.replicate 16 1)
    (List.replicate 16 0 ++ [0x91, 0x00]) (List.replicate 16 1 ++ [0x91, 0x00])
    (List.replicate 16 0) (List.replicate 16 1) (List.replicate 16 1) none []
    (by decide) (by rfl) (by decide) (by rfl) (by decide) (by rfl)).1 (by decide)

/-- C2: the enveloped-mode `Transceive` status handling strips the last
two bytes exactly when the trailing pair is `(0x91, 0x00)`,
`(0x91, 0xAF)` or `(0x90, 0x00)`; every other trailing pair yields an
error; a response shorter than 2 bytes yields an error without being
interpreted as a status pair; and `Transceive` applies exactly this
interpretation to the raw transport response. -/
theorem claim_C2_transceive_status (resp : List Nat) :
    (resp.length < 2 → ∃ e, Desfire.transceiveStatus resp = .error e) ∧
    (2 ≤ resp.length →
      (let sw1 := resp.getD (resp.length - 2) 0
       let sw2 := resp.getD (resp.length - 1) 0
       ((sw1 = 0x91 ∧ (sw2 = 0x00 ∨ sw2 = 0xAF)) ∨ (sw1 = 0x90 ∧ sw2 = 0x00) →
          Desfire.transceiveStatus resp = .ok (resp.take (resp.length - 2))) ∧
       (¬ ((sw1 = 0x91 ∧ (sw2 = 0x00 ∨ sw2 = 0xAF)) ∨ (sw1 = 0x90 ∧ sw2 = 0x00)) →
          ∃ e, Desfire.transceiveStatus resp = .error e))) ∧
    (∀ (cmd : List Nat) (rest : List (Option (List Nat))) (log : List (List Nat)),
      (Desfire.Transceive ⟨some resp :: rest, log⟩ cmd).1 = Desfire.transceiveStatus resp) := by
  refine ⟨fun h => ⟨"response too short", by simp [Desfire.transceiveStatus, h]⟩,
    fun h => ⟨?_, ?_⟩, fun cmd rest log => by rw [Desfire.Transceive_cons]⟩
  all_goals have hn : ¬ resp.length < 2 := by omega
  · intro hgood
    rcases hgood with ⟨h91, hOr⟩ | ⟨h90, h00⟩
    · have hin : ¬ (resp.getD (resp.length - 1) 0 ≠ Desfire.StatusSuccess ∧
          resp.getD (resp.length - 1) 0 ≠ Desfire.StatusAdditionalFrame) := by
        rcases hOr with h00 | hAF
        · exact fun hc => hc.1 h00
        · exact fun hc => hc.2 hAF
      rw [Desfire.transceiveStatus_eq resp hn, if_pos h91, if_neg hin]
    · have h91n : resp.getD (resp.length - 2) 0 ≠ 0x91 := by rw [h90]; decide
      rw [Desfire.transceiveStatus_eq resp hn, if_neg h91n, if_pos ⟨h90, h00⟩]
  · intro hbad
    push_neg at hbad
    by_cases h91 : resp.getD (resp.length - 2) 0 = 0x91
    · obtain ⟨hs0, hsAF⟩ := hbad.1 h91
      exact ⟨"DESFire error",
        by rw [Desfire.transceiveStatus_eq resp hn, if_pos h91, if_pos ⟨hs0, hsAF⟩]⟩
    · by_cases h90 : resp.getD (resp.length - 2) 0 = 0x90 ∧ resp.getD (resp.length - 1) 0 = 0x00
      · exact absurd h90.2 (hbad.2 h90.1)
      · exact ⟨"card error",
          by rw [Desfire.transceiveStatus_eq resp hn, if_neg h91, if_neg h90]⟩

/-- C2 witness: concrete evaluations covering a stripped success pair
and a rejected pair. -/
theorem claim_C2_witness :
    (2 ≤ ([1, 2, 0x91, 0x00] : List Nat).length ∧
      Desfire.transceiveStatus [1, 2, 0x91, 0x00] = .ok [1, 2]) ∧
    ∃ e, Desfire.transceiveStatus [1, 2, 0x91, 0x07] = .error e :=
  ⟨⟨by decide,
     ((claim_C2_transceive_status [1, 2, 0x91, 0x00]).2.1 (by decide)).1 (by decide)⟩,
   ((claim_C2_transceive_status [1, 2, 0x91, 0x07]).2.1 (by decide)).2 (by decide)⟩

/-- C3 counterexample: a simulated card satisfying the hypotheses of the
claim (DESFire probe fails, factory-key load and 4K-trailer
authenticate succeed) whose page-3 read returns an NTAG capability
container; the capability-container verdict preempts the Classic probe
and the card is not classified Classic 4K. -/
theorem claim_C3_counterexample :
    (Hardware.tryDESFireVersion ntagCcClassicCard).1 = false ∧
    ntagCcClassicCard (Hardware.classicLoadKeyCmd 0 Hardware.defaultKey) = some [0x90, 0x00] ∧
    ntagCcClassicCard (Hardware.classicAuthCmd 0x40 0x60 0) = some [0x90, 0x00] ∧
    (Hardware.detectCardType ntagCcClassicCard).1 =
      .ok ("Unknown (ATQA=0044, SAK=44)", 0, 0x44, [0x00, 0x44]) ∧
    (Hardware.detectCardType ntagCcClassicCard).1 ≠
      .ok ("MIFARE Classic 4K (4KB, CRYPTO1)", 4096, 0x18, [0x00, 0x02]) := by
  have h4 : (Hardware.detectCardType ntagCcClassicCard).1 =
      .ok ("Unknown (ATQA=0044, SAK=44)", 0, 0x44, [0x00, 0x44]) := rfl
  refine ⟨rfl, rfl, rfl, h4, fun hcc => ?_⟩
  have h5 := h4.symm.trans hcc
  simp at h5

/-- C3 (amended): for every simulated card whose DESFire version probe
fails, whose NTAG capability-container probe does not match (the page-3
read fails or yields no known CC signature), and whose Classic
factory-key load and 4K-trailer (block `0x40`) authentication succeed,
identification classifies MIFARE Classic 4K with capacity 4096 bytes;
the transport trace is exactly the DESFire probe, the block-0/page-0..3
pre-reads, the key load, the 4K-trailer authenticate and a block-0
re-read, so no Ultralight/NTAG probe (page read or low native read) is
issued after the Classic probe succeeds and the 1K block 0 is never
authenticated — and in `tryClassic` on any card, whenever the block-0
authenticate APDU is issued at all, the 4K-trailer authenticate APDU was
issued just before it. -/
theorem claim_C3_classic4k (card : Card)
    (hdf : (Hardware.tryDESFireVersion card).1 = false)
    (hntag : (Hardware.tryNTAG ((Hardware.readPage card 3).1.toOption)).1 = false)
    (hload : card (Hardware.classicLoadKeyCmd 0 Hardware.defaultKey) = some [0x90, 0x00])
    (hauth : card (Hardware.classicAuthCmd 0x40 0x60 0) = some [0x90, 0x00]) :
    (Hardware.detectCardType card).1 =
      .ok ("MIFARE Classic 4K (4KB, CRYPTO1)", 4096, 0x18, [0x00, 0x02]) ∧
    (Hardware.detectCardType card).2 =
      [Hardware.dfVersionCmd, Hardware.readBlockCmd 0, Hardware.readPageCmd 0,
       Hardware.readPageCmd 1, Hardware.readPageCmd 2, Hardware.readPageCmd 3,
       Hardware.classicLoadKeyCmd 0 Hardware.defaultKey, Hardware.classicAuthCmd 0x40 0x60 0,
       Hardware.readBlockCmd 0] ∧
    (∀ p, Hardware.readPageCmd p ∉ ((Hardware.detectCardType card).2).drop 8) ∧
    Hardware.ultralightProbeCmd ∉ ((Hardware.detectCardType card).2).drop 8 ∧
    Hardware.classicAuthCmd 0x00 0x60 0 ∉ (Hardware.detectCardType card).2 ∧
    (∀ c : Card, Hardware.classicAuthCmd 0x00 0x60 0 ∈ (Hardware.tryClassic c).2 →
      ((Hardware.tryClassic c).2).getD 1 [] = Hardware.classicAuthCmd 0x40 0x60 0) := by
  have hLK : Hardware.classicLoadKey card 0 Hardware.defaultKey =
      (.ok (), [Hardware.classicLoadKeyCmd 0 Hardware.defaultKey]) := by
    unfold Hardware.classicLoadKey
    rw [if_neg (by decide : ¬ Hardware.defaultKey.length ≠ 6)]
    simp [hload]
  have hCA : Hardware.classicAuthenticate card 0x40 0x60 0 =
      (.ok (), [Hardware.classicAuthCmd 0x40 0x60 0]) := by
    simp [Hardware.classicAuthenticate, hauth]
  have hTC : Hardware.tryClassic card = ((true, 4096),
      [Hardware.classicLoadKeyCmd 0 Hardware.defaultKey, Hardware.classicAuthCmd 0x40 0x60 0,
       Hardware.readBlockCmd 0]) := by
    simp [Hardware.tryClassic, hLK, hCA, Hardware.readBlock]
  have hGCA : Hardware.getCardAttributes card ((Hardware.readPage card 3).1.toOption) =
      (.ok (0x18, [0x00, 0x02], 4096),
       [Hardware.classicLoadKeyCmd 0 Hardware.defaultKey, Hardware.classicAuthCmd 0x40 0x60 0,
        Hardware.readBlockCmd 0]) := by
    simp [Hardware.getCardAttributes, hntag, hTC]
  have hd : Hardware.tryDESFireVersion card = (false, [Hardware.dfVersionCmd]) := by
    rw [← hdf]
    rfl
  have hGCT : Hardware.getCardType card [0x00, 0x02] 0x18 4096 =
      (.ok ("MIFARE Classic 4K (4KB, CRYPTO1)", 4096), []) := rfl
  have hmain : Hardware.detectCardType card =
      (.ok ("MIFARE Classic 4K (4KB, CRYPTO1)", 4096, 0x18, [0x00, 0x02]),
       [Hardware.dfVersionCmd, Hardware.readBlockCmd 0, Hardware.readPageCmd 0,
        Hardware.readPageCmd 1, Hardware.readPageCmd 2, Hardware.readPageCmd 3,
        Hardware.classicLoadKeyCmd 0 Hardware.defaultKey, Hardware.classicAuthCmd 0x40 0x60 0,
        Hardware.readBlockCmd 0]) := by
    have hp1 : ∀ p, (Hardware.readPage card p).2 = [Hardware.readPageCmd p] := fun _ => rfl
    have hb1 : (Hardware.readBlock card 0).2 = [Hardware.readBlockCmd 0] := rfl
    simp [Hardware.detectCardType, hd, hGCA, hGCT, hp1, hb1]
  refine ⟨by rw [hmain], by rw [hmain], ?_, ?_, ?_, ?_⟩
  · intro p
    rw [hmain]
    simp [Hardware.readPageCmd, Hardware.readBlockCmd]
  · rw [hmain]
    simp [Hardware.ultralightProbeCmd, Hardware.readBlockCmd]
  · rw [hmain]
    simp [Hardware.classicAuthCmd, Hardware.dfVersionCmd, Hardware.readBlockCmd,
      Hardware.readPageCmd, Hardware.classicLoadKeyCmd, Hardware.defaultKey]
  · intro c hmem
    rcases hLKc : Hardware.classicLoadKey c 0 Hardware.defaultKey with ⟨res1, t1⟩
    have ht1 : t1 = [Hardware.classicLoadKeyCmd 0 Hardware.defaultKey] := by
      have h := Hardware.classicLoadKey_trace c
      rw [hLKc] at h
      exact h
    rcases res1 with e1 | u1
    · rw [show Hardware.tryClassic c = ((false, 0), t1) by
        unfold Hardware.tryClassic; rw [hLKc]] at hmem
      rw [ht1] at hmem
      simp [Hardware.classicAuthCmd, Hardware.classicLoadKeyCmd, Hardware.defaultKey] at hmem
    · rcases hA40 : Hardware.classicAuthenticate c 0x40 0x60 0 with ⟨res2, t2⟩
      have ht2 : t2 = [Hardware.classicAuthCmd 0x40 0x60 0] := by
        have h := Hardware.classicAuthenticate_trace c 0x40 0x60 0
        rw [hA40] at h
        exact h
      rcases res2 with e2 | u2
      · rcases hA00 : Hardware.classicAuthenticate c 0x00 0x60 0 with ⟨res3, t3⟩
        rcases res3 with e3 | u3
        · rw [show Hardware.tryClassic c = ((false, 0), t1 ++ t2 ++ t3) by
            unfold Hardware.tryClassic; rw [hLKc, hA40, hA00], ht1, ht2]
          rfl
        · rw [show Hardware.tryClassic c =
              ((true, 1024), t1 ++ t2 ++ t3 ++ (Hardware.readBlock c 0).2) by
            unfold Hardware.tryClassic; rw [hLKc, hA40, hA00], ht1, ht2]
          rfl
      · rw [show Hardware.tryClassic c = ((true, 4096), t1 ++ t2 ++ (Hardware.readBlock c 0).2) by
          unfold Hardware.tryClassic; rw [hLKc, hA40], ht1, ht2]
        rfl

/-- C3 witness: the concrete Classic-only simulated card. -/
theorem claim_C3_witness :
    (Hardware.tryDESFireVersion classicOnlyCard).1 = false ∧
    (Hardware.detectCardType classicOnlyCard).1 =
      .ok ("MIFARE Classic 4K (4KB, CRYPTO1)", 4096, 0x18, [0x00, 0x02]) :=
  ⟨rfl, (claim_C3_classic4k classicOnlyCard rfl rfl rfl rfl).1⟩

/-- C4: `GetVersion` performs exactly three exchanges — the version
opcode once, then the additional-frame opcode with empty payload twice —
and when all three succeed returns exactly the concatenation of the
three frame payloads in order; if any of the three exchanges fails,
`GetVersion` returns that error. -/
theorem claim_C4_getVersion (r1 r2 r3 p1 p2 p3 : List Nat) :
    (Desfire.transceiveStatus r1 = .ok p1 → Desfire.transceiveStatus r2 = .ok p2 →
      Desfire.transceiveStatus r3 = .ok p3 →
      Desfire.GetVersion ⟨[some r1, some r2, some r3], []⟩ =
        (.ok ((p1 ++ p2) ++ p3),
         ⟨[], [Desfire.buildAPDU [Desfire.CmdGetVersion],
               Desfire.buildAPDU [Desfire.CmdAdditionalFrame],
               Desfire.buildAPDU [Desfire.CmdAdditionalFrame]]⟩)) ∧
    (∀ e, Desfire.transceiveStatus r1 = .error e →
      Desfire.GetVersion ⟨[some r1, some r2, some r3], []⟩ =
        (.error e, ⟨[some r2, some r3], [Desfire.buildAPDU [Desfire.CmdGetVersion]]⟩)) ∧
    (∀ e, Desfire.transceiveStatus r1 = .ok p1 → Desfire.transceiveStatus r2 = .error e →
      Desfire.GetVersion ⟨[some r1, some r2, some r3], []⟩ =
        (.error e, ⟨[some r3], [Desfire.buildAPDU [Desfire.CmdGetVersion],
                                Desfire.buildAPDU [Desfire.CmdAdditionalFrame]]⟩)) ∧
    (∀ e, Desfire.transceiveStatus r1 = .ok p1 → Desfire.transceiveStatus r2 = .ok p2 →
      Desfire.transceiveStatus r3 = .error e →
      Desfire.GetVersion ⟨[some r1, some r2, some r3], []⟩ =
        (.error e, ⟨[], [Desfire.buildAPDU [Desfire.CmdGetVersion],
                         Desfire.buildAPDU [Desfire.CmdAdditionalFrame],
                         Desfire.buildAPDU [Desfire.CmdAdditionalFrame]]⟩)) := by
  refine ⟨fun h1 h2 h3 => ?_, fun e h1 => ?_, fun e h1 h2 => ?_, fun e h1 h2 h3 => ?_⟩
  · simp [Desfire.GetVersion, Desfire.Transceive_cons, h1, h2, h3]
  · simp [Desfire.GetVersion, Desfire.Transceive_cons, h1]
  · simp [Desfire.GetVersion, Desfire.Transceive_cons, h1, h2]
  · simp [Desfire.GetVersion, Desfire.Transceive_cons, h1, h2, h3]

/-- C4 witness: a concrete 3-frame transcript with chunking 1+2+3 bytes. -/
theorem claim_C4_witness :
    Desfire.transceiveStatus [9, 0x91, 0xAF] = .ok [9] ∧
      Desfire.GetVersion
          ⟨[some [9, 0x91, 0xAF], some [8, 7, 0x91, 0xAF], some [6, 5, 4, 0x91, 0x00]], []⟩ =
        (.ok [9, 8, 7, 6, 5, 4],
         ⟨[], [Desfire.buildAPDU [Desfire.CmdGetVersion],
               Desfire.buildAPDU [Desfire.CmdAdditionalFrame],
               Desfire.buildAPDU [Desfire.CmdAdditionalFrame]]⟩) :=
  ⟨by rfl,
   (claim_C4_getVersion [9, 0x91, 0xAF] [8, 7, 0x91, 0xAF] [6, 5, 4, 0x91, 0x00]
      [9] [8, 7] [6, 5, 4]).1 (by rfl) (by rfl) (by rfl)⟩

/-- C10: `ReadPage` and `WritePage` reject any page address at or above
the 48-page capacity with no transport exchange (empty trace), and
`WritePage` also rejects data that is not exactly 4 bytes before any
exchange. -/
theorem claim_C10_page_guards (card : Card) (page : Nat) (data : List Nat) :
    (48 ≤ page →
      Ultralight.ReadPage card page = (.error "page address out of range", []) ∧
      Ultralight.WritePage card page data = (.error "page address out of range", [])) ∧
    (data.length ≠ 4 →
      (∃ e, (Ultralight.WritePage card page data).1 = .error e) ∧
      (Ultralight.WritePage card page data).2 = []) := by
  constructor
  · intro h
    constructor
    · simp [Ultralight.ReadPage, Ultralight.TotalPages, h]
    · simp [Ultralight.WritePage, Ultralight.TotalPages, h]
  · intro h
    by_cases hp : Ultralight.TotalPages ≤ page
    · exact ⟨⟨"page address out of range", by simp [Ultralight.WritePage, hp]⟩,
        by simp [Ultralight.WritePage, hp]⟩
    · exact ⟨⟨"data must be exactly 4 bytes", by simp [Ultralight.WritePage, hp, h]⟩,
        by simp [Ultralight.WritePage, hp, h]⟩

/-- C10 witness: concrete evaluation at page 48 and at a 3-byte write. -/
theorem claim_C10_witness :
    (48 : Nat) ≤ 48 ∧
      Ultralight.ReadPage (fun _ => none) 48 = (.error "page address out of range", []) ∧
      Ultralight.WritePage (fun _ => none) 48 [1, 2, 3] =
        (.error "page address out of range", []) :=
  ⟨by decide, (claim_C10_page_guards (fun _ => none) 48 [1, 2, 3]).1 (by decide)⟩

end ACR122U
